import Mathlib

/-
Verification development for the Termux tactical WiFi scanner (src/main.py).

The Python source is shallowly embedded below:
* Python `str` helpers (`in`, `.upper()`, `.lower()`) become executable
  functions on Lean `String`s (the data they are applied to is ASCII).
* Python integers become `Int`; Python `%` and `//` (floor semantics) become
  `Int.fmod` / `Int.fdiv`.
* Python floats become real numbers; `math.pow` becomes real power.
* CPython's salted string hash (siphash13 keyed by the per-process
  `_Py_HashSecret`, CPython >= 3.11) is embedded bit-exactly over `Nat`.
* Fallible code returns `Except`/`Option`; `exit(1)` paths are reified as a
  `SetupResult` outcome.
-/

namespace Sopia

/-! ## Python string primitives -/

/-- Python `s.upper()` for ASCII data: uppercase every character. -/
def pyUpper (s : String) : String := String.mk (s.data.map Char.toUpper)

/-- Python `s.lower()` for ASCII data: lowercase every character. -/
def pyLower (s : String) : String := String.mk (s.data.map Char.toLower)

/-- Does `needle` occur at the very start of `hay`? -/
def matchesAt : List Char → List Char → Bool
  | [], _ => true
  | _ :: _, [] => false
  | c :: cs, d :: ds => c == d && matchesAt cs ds

/-- Does `needle` occur contiguously anywhere in `hay`? -/
def hasSubList (needle : List Char) : List Char → Bool
  | [] => needle.isEmpty
  | d :: ds => matchesAt needle (d :: ds) || hasSubList needle ds

/-- Python's substring test `needle in hay` on strings. -/
def pyContains (hay needle : String) : Bool := hasSubList needle.data hay.data

/-! ## Encryption classification (src/main.py lines 160-170)

```python
if 'WPA2' in capabilities:          encryption = 'WPA2'
elif 'WPA' in capabilities:         encryption = 'WPA'
elif 'WEP' in capabilities:         encryption = 'WEP'
elif capabilities == '' or '[ESS]' == capabilities:  encryption = 'Open'
else:                               encryption = capabilities
``` -/

def encFromCaps (capabilities : String) : String :=
  if pyContains capabilities "WPA2" then "WPA2"
  else if pyContains capabilities "WPA" then "WPA"
  else if pyContains capabilities "WEP" then "WEP"
  else if capabilities == "" || capabilities == "[ESS]" then "Open"
  else capabilities

/-! ## Channel derivation (src/main.py lines 172-176)

```python
if frequency >= 5000: channel = str((frequency - 5000) // 5)
else:                 channel = str((frequency - 2412) // 5 + 1)
``` -/

def channelOfFreq (frequency : Int) : Int :=
  if 5000 ≤ frequency then (frequency - 5000).fdiv 5
  else (frequency - 2412).fdiv 5 + 1

/-! ## Risk score (src/main.py lines 71-103, `calculate_risk_score`)

The Python function reads the fields with `signal.get(key, default)`, so each
field of the input record is optional.  The running `score` accumulator is
split into one definition per contribution; their sum is formed in the same
order as the Python code before the final `min(score, 100)`. -/

structure RiskInput where
  encryption : Option String
  rssi : Option Int
  ssid : Option String

/-- Lines 76-82: encryption weakness contribution. -/
def encScoreOf (encryption : String) : Int :=
  if pyContains (pyUpper encryption) "OPEN" || encryption == "" then 40
  else if pyContains (pyUpper encryption) "WEP" then 35
  else if pyContains (pyUpper encryption) "WPA" && !(pyContains (pyUpper encryption) "WPA2") then 20
  else 0

/-- Lines 85-91: proximity contribution from `rssi`. -/
def rssiScoreOf (rssi : Int) : Int :=
  if -50 < rssi then 30
  else if -65 < rssi then 20
  else if -75 < rssi then 10
  else 0

/-- Lines 94-97: suspicious-keyword contribution (applied to the lowered ssid). -/
def suspiciousWords : List String :=
  ["free", "guest", "public", "test", "default", "android", "wifi"]

def suspiciousScoreOf (ssidLower : String) : Int :=
  if suspiciousWords.any (fun s => pyContains ssidLower s) then 15 else 0

/-- Lines 100-101: hidden-ssid contribution (applied to the lowered ssid). -/
def hiddenScoreOf (ssidLower : String) : Int :=
  if ssidLower == "" || ssidLower == "<unknown ssid>" then 20 else 0

/-- Lines 71-103: the whole risk score, clamped with `min(score, 100)`. -/
def calculate_risk_score (signal : RiskInput) : Int :=
  let encryption := signal.encryption.getD "Unknown"
  let rssi := signal.rssi.getD (-100)
  let ssidLower := pyLower (signal.ssid.getD "")
  min (encScoreOf encryption + rssiScoreOf rssi +
       suspiciousScoreOf ssidLower + hiddenScoreOf ssidLower) 100

/-! ## CPython string hashing

`scan_all` (src/main.py line 259) calls the builtin `hash()` on the MAC
address string.  In CPython (>= 3.11, `sys.hash_info.algorithm = "siphash13"`)
`hash()` on `str` is siphash13 over the string's bytes, keyed by the
per-process 128-bit `_Py_HashSecret`, which is drawn from the OS random
source at interpreter startup (unless `PYTHONHASHSEED` pins it).  The
embedding below is a bit-exact transcription of `Python/pyhash.c`
(`siphash13`) and `Python/bootstrap_hash.c` (`lcg_urandom`), over `Nat` with
explicit reduction modulo `2 ^ 64`. -/

def w64 : Nat := 18446744073709551616

def add64 (a b : Nat) : Nat := (a + b) % w64

def rotl64 (a s : Nat) : Nat := ((a <<< s) % w64) ||| (a >>> (64 - s))

/-- The `HALF_ROUND(a,b,c,d,s,t)` step of pyhash.c. -/
def halfRound (a b c d s t : Nat) : Nat × Nat × Nat × Nat :=
  let a := add64 a b
  let c := add64 c d
  let b := (rotl64 b s) ^^^ a
  let d := (rotl64 d t) ^^^ c
  let a := rotl64 a 32
  (a, b, c, d)

/-- The `SINGLE_ROUND(v0,v1,v2,v3)` step of pyhash.c. -/
def sipRound (v0 v1 v2 v3 : Nat) : Nat × Nat × Nat × Nat :=
  match halfRound v0 v1 v2 v3 13 16 with
  | (v0, v1, v2, v3) =>
    match halfRound v2 v1 v0 v3 17 21 with
    | (v2, v1, v0, v3) => (v0, v1, v2, v3)

/-- Little-endian value of a byte list. -/
def le64 (bytes : List Nat) : Nat := bytes.foldr (fun b acc => b + acc * 256) 0

/-- The 8-byte compression loop of siphash13. -/
def sipLoop (v0 v1 v2 v3 : Nat) : List Nat → Nat × Nat × Nat × Nat × List Nat
  | b0 :: b1 :: b2 :: b3 :: b4 :: b5 :: b6 :: b7 :: rest =>
    let mi := le64 [b0, b1, b2, b3, b4, b5, b6, b7]
    (match sipRound v0 v1 v2 (v3 ^^^ mi) with
     | (v0, v1, v2, v3) => sipLoop (v0 ^^^ mi) v1 v2 v3 rest)
  | rest => (v0, v1, v2, v3, rest)

def siphash13 (k0 k1 : Nat) (msg : List Nat) : Nat :=
  let bLen := (msg.length <<< 56) % w64
  let v0 := k0 ^^^ 0x736f6d6570736575
  let v1 := k1 ^^^ 0x646f72616e646f6d
  let v2 := k0 ^^^ 0x6c7967656e657261
  let v3 := k1 ^^^ 0x7465646279746573
  match sipLoop v0 v1 v2 v3 msg with
  | (v0, v1, v2, v3, rest) =>
    let b := bLen ||| le64 rest
    match sipRound v0 v1 v2 (v3 ^^^ b) with
    | (v0, v1, v2, v3) =>
      match sipRound (v0 ^^^ b) v1 (v2 ^^^ 0xff) v3 with
      | (v0, v1, v2, v3) =>
        match sipRound v0 v1 v2 v3 with
        | (v0, v1, v2, v3) =>
          match sipRound v0 v1 v2 v3 with
          | (v0, v1, v2, v3) => (v0 ^^^ v1) ^^^ (v2 ^^^ v3)

/-- Byte sequence of an ASCII string (CPython hashes the compact
one-byte-per-character representation of ASCII `str` objects). -/
def strBytes (s : String) : List Nat := s.data.map Char.toNat

/-- Reinterpret an unsigned 64-bit value as the signed `Py_hash_t`. -/
def toSigned64 (h : Nat) : Int :=
  if h < 2 ^ 63 then (h : Int) else (h : Int) - (w64 : Int)

/-- CPython `hash()` on an ASCII `str`, keyed by the process hash secret
`(k0, k1)`: `_Py_HashBytes` returns 0 for the empty string and replaces a
raw result of -1 by -2. -/
def pyHashStr (k0 k1 : Nat) (s : String) : Int :=
  if s.data.isEmpty then 0
  else
    let h := siphash13 (k0 % w64) (k1 % w64) (strBytes s)
    toSigned64 (if h = w64 - 1 then w64 - 2 else h)

/-- The `lcg_urandom` stream of bootstrap_hash.c: the byte stream CPython uses to fill
`_Py_HashSecret` when `PYTHONHASHSEED` is a nonzero integer. -/
def lcgBytes (x : Nat) : Nat → List Nat
  | 0 => []
  | n + 1 =>
    let x := (x * 214013 + 2531011) % 4294967296
    ((x >>> 16) % 256) :: lcgBytes x n

/-- The `(k0, k1)` hash secret produced for a given `PYTHONHASHSEED` value. -/
def keysOfSeed (seed : Nat) : Nat × Nat :=
  if seed = 0 then (0, 0)
  else
    let buf := lcgBytes seed 16
    (le64 (buf.take 8), le64 (buf.drop 8))

/-! ## Synthetic position (src/main.py lines 258-261)

```python
hash_val = hash(sig['mac'])
sig['x'] = (hash_val % 180) - 90
sig['y'] = ((hash_val // 180) % 160) - 80
```

Python `%` and `//` on integers use floor semantics: `Int.fmod`/`Int.fdiv`. -/

def pyMod (a b : Int) : Int := a.fmod b

def pyFloorDiv (a b : Int) : Int := a.fdiv b

def posX (hashVal : Int) : Int := pyMod hashVal 180 - 90

def posY (hashVal : Int) : Int := pyMod (pyFloorDiv hashVal 180) 160 - 80

/-! ## Distance estimate (src/main.py lines 62-69)

```python
def calculate_distance(self, rssi, frequency=2437):
    if rssi == 0 or rssi == -100:
        return 100
    ratio = rssi / -60.0
    if ratio < 1.0:
        return math.pow(ratio, 10)
    return (0.89976) * math.pow(ratio, 7.7095) + 0.111
```

Python floats are modelled as real numbers; `math.pow(ratio, 10)` is the
(integral-exponent) monomial `ratio ^ 10` and `math.pow(ratio, 7.7095)` is
the real power (on that branch `ratio >= 1 > 0`).  The `frequency` parameter
is accepted (with its Python default) and, exactly as in the source, never
used. -/

noncomputable def calculate_distance (rssi : ℝ) (frequency : ℝ := 2437) : ℝ :=
  if rssi = 0 ∨ rssi = -100 then 100
  else
    let ratio := rssi / (-60)
    if ratio < 1 then ratio ^ (10 : ℕ)
    else 0.89976 * ratio ^ (7.7095 : ℝ) + 0.111

/-- Round-half-even to an integer, the real-number model of Python's
banker's rounding (`round`).  At a tie (`fract y = 1/2`) the even neighbour
`2 * round (y / 2)` is chosen; otherwise it is ordinary nearest rounding. -/
noncomputable def rhe (y : ℝ) : Int :=
  if Int.fract y = 1 / 2 then 2 * round (y / 2) else round y

/-- Python `round(x, 1)` on the real model. -/
noncomputable def pyRound1 (x : ℝ) : ℝ := (rhe (x * 10) : ℝ) / 10

/-- Python `round(x, 2)` on the real model. -/
noncomputable def pyRound2 (x : ℝ) : ℝ := (rhe (x * 100) : ℝ) / 100

/-! ## Signal records and enrichment (src/main.py lines 151-273) -/

/-- The dict built per network by `scan_wifi_termux` (lines 178-186). -/
structure RawNet where
  type : String
  ssid : String
  mac : String
  rssi : Int
  encryption : String
  channel : String
  frequency : Int
deriving DecidableEq, Repr

/-- A fully enriched signal: the same dict after the `scan_all` processing
loop (lines 254-261) added `distance`, `risk`, `timestamp`, `x` and `y`. -/
structure Signal where
  type : String
  ssid : String
  mac : String
  rssi : Int
  encryption : String
  channel : String
  frequency : Int
  distance : ℝ
  risk : Int
  timestamp : String
  x : Int
  y : Int

/-- Lines 254-261: enrichment of one signal.  `k0 k1` is the process hash
secret (the call `hash(sig['mac'])`), `ts` the cycle timestamp.  Note the
code calls `calculate_distance(sig['rssi'])` without a frequency argument
and rounds to one decimal. -/
noncomputable def enrichSig (k0 k1 : Nat) (ts : String) (sig : RawNet) : Signal :=
  let hashVal := pyHashStr k0 k1 sig.mac
  { type := sig.type
    ssid := sig.ssid
    mac := sig.mac
    rssi := sig.rssi
    encryption := sig.encryption
    channel := sig.channel
    frequency := sig.frequency
    distance := pyRound1 (calculate_distance (sig.rssi : ℝ))
    risk := calculate_risk_score ⟨some sig.encryption, some sig.rssi, some sig.ssid⟩
    timestamp := ts
    x := posX hashVal
    y := posY hashVal }

/-- Line 204: `scan_ble_termux` always returns the empty list. -/
def scan_ble_termux : List RawNet := []

/-- Lines 236-273 (`scan_all`): `all_signals = wifi + ble` is enriched in
place, in order, and published as `self.signals` with no reordering. -/
noncomputable def scan_all_signals (k0 k1 : Nat) (ts : String) (wifi : List RawNet) :
    List Signal :=
  (wifi ++ scan_ble_termux).map (enrichSig k0 k1 ts)

/-- Descending-signal-strength order of a published list (each adjacent pair
is ordered by `rssi`). -/
def sortedByDescRssi : List Signal → Bool
  | [] => true
  | [_] => true
  | a :: b :: rest => decide (b.rssi ≤ a.rssi) && sortedByDescRssi (b :: rest)

/-! ## The structured-record (Termux JSON) format and its parsing
(src/main.py lines 105-198, `scan_wifi_termux`)

The tool output, once `json.loads` has succeeded, is a JSON value. -/

inductive JVal where
  | jnull : JVal
  | jbool : Bool → JVal
  | jint : Int → JVal
  | jstr : String → JVal
  | jarr : List JVal → JVal
  | jobj : List (String × JVal) → JVal

/-- Python `d.get(key, default)` on a JSON object's field list. -/
def dictGet (fields : List (String × JVal)) (key : String) (dflt : JVal) : JVal :=
  match fields.find? (fun kv => kv.fst == key) with
  | some kv => kv.snd
  | none => dflt

/-- Lines 153-186: one iteration of the `for network in data` loop.

A network that is not a JSON object raises `AttributeError` at
`network.get(...)`; that exception (like any other raised inside the loop)
is caught only by the outer handler of `scan_wifi_termux` (lines 193-198),
which abandons the whole parse — so the loop body is embedded as an
`Except`, with `Except.error` standing for a raised exception.  Field values
whose dynamic type does not fit the operations applied downstream
(`'WPA2' in capabilities`, `frequency >= 5000`, string/arithmetic uses of
`ssid`/`bssid`/`rssi` during enrichment) likewise poison the scan cycle
before a snapshot is published; the embedding surfaces those records as
errors here.  Absent fields take the defaults of lines 154-158. -/
def parseNetwork (v : JVal) : Except Unit RawNet :=
  match v with
  | JVal.jobj fields =>
    match dictGet fields "ssid" (JVal.jstr "<unknown ssid>"),
          dictGet fields "bssid" (JVal.jstr "unknown"),
          dictGet fields "rssi" (JVal.jint (-100)),
          dictGet fields "frequency" (JVal.jint 2437),
          dictGet fields "capabilities" (JVal.jstr "") with
    | JVal.jstr ssid, JVal.jstr bssid, JVal.jint rssi, JVal.jint frequency,
      JVal.jstr capabilities =>
      Except.ok
        { type := "wifi"
          ssid := ssid
          mac := bssid
          rssi := rssi
          encryption := encFromCaps capabilities
          channel := toString (channelOfFreq frequency)
          frequency := frequency }
    | _, _, _, _, _ => Except.error ()
  | _ => Except.error ()

/-- The whole `for network in data` loop: the first raised exception aborts
the loop (and is turned into `[]` by the caller). -/
def parseNetworks : List JVal → Except Unit (List RawNet)
  | [] => Except.ok []
  | v :: rest =>
    match parseNetwork v with
    | Except.ok n =>
      match parseNetworks rest with
      | Except.ok ns => Except.ok (n :: ns)
      | Except.error e => Except.error e
    | Except.error e => Except.error e

/-- Lines 105-198 from the point the subprocess has run.  `none` stands for
every earlier bail-out with `return []`: nonzero exit code (line 118),
empty stdout (line 125), or a `json.JSONDecodeError` (line 136).  A decoded
value that is not a list returns `[]` (line 142), an empty list returns `[]`
(line 146), and any exception inside the loop returns `[]` via the outer
`except` handlers (lines 190-198). -/
def scanWifiTermuxFromJson (data : Option JVal) : List RawNet :=
  match data with
  | none => []
  | some (JVal.jarr l) =>
    if l.isEmpty then []
    else
      match parseNetworks l with
      | Except.ok ns => ns
      | Except.error _ => []
  | some _ => []

/-! ## Startup probing (src/main.py lines 26-60, `setup_termux`)

```python
try:
    result = subprocess.run(['which', 'termux-wifi-scaninfo'], ...)
    if result.returncode != 0:
        ...
        exit(1)
except Exception as e:
    ...
    exit(1)
try:
    result = subprocess.run(['termux-wifi-scaninfo'], ...)
    if "permission" in result.stderr.lower():
        ...
        exit(1)
    print("[+] Termux API configured correctly")
except Exception as e:
    ...
    exit(1)
```

The probe environment records what the two subprocess invocations do;
`SetupResult.abort n` is `exit(n)` (which terminates the process:
`SystemExit` is not caught by `except Exception`). -/

structure ProbeEnv where
  whichRaises : Bool
  whichExitCode : Int
  scanRaises : Bool
  scanStderr : String

inductive SetupResult where
  | ok : SetupResult
  | abort : Nat → SetupResult
deriving DecidableEq, Repr

def setup_termux (env : ProbeEnv) : SetupResult :=
  if env.whichRaises then SetupResult.abort 1
  else if env.whichExitCode ≠ 0 then SetupResult.abort 1
  else if env.scanRaises then SetupResult.abort 1
  else if pyContains (pyLower env.scanStderr) "permission" then SetupResult.abort 1
  else SetupResult.ok

/-! ## State store and HTTP query path
(src/main.py lines 275-282 `get_data` and 291-306 `do_GET`) -/

/-- One entry of the rolling timeline (lines 265-270). -/
structure TimelineEntry where
  time : String
  count : Nat
  wifi : Nat
  ble : Nat

/-- The scanner's shared state (`self.signals`, `self.timeline`). -/
structure ScannerState where
  signals : List Signal
  timeline : List TimelineEntry

/-- Lines 275-282: the dict returned by `get_data` — keys `signals`,
`timeline` and `last_scan` (there is no `method` key). -/
structure ApiData where
  signals : List Signal
  timeline : List TimelineEntry
  last_scan : String

def get_data (st : ScannerState) (now : String) : ApiData :=
  { signals := st.signals, timeline := st.timeline, last_scan := now }

inductive HttpBody where
  | html : HttpBody
  | json : ApiData → HttpBody
  | empty : HttpBody

structure HttpResponse where
  status : Nat
  contentType : Option String
  body : HttpBody

/-- The JSON field names of `json.dumps(...)` for each body kind: a
serialized `get_data` dict has exactly the keys of `ApiData`. -/
def jsonFields : HttpBody → List String
  | HttpBody.json _ => ["signals", "timeline", "last_scan"]
  | _ => []

/-- Lines 291-306: `do_GET` dispatch on the parsed request path. -/
def do_GET (st : ScannerState) (now : String) (path : String) : HttpResponse :=
  if path = "/" then { status := 200, contentType := some "text/html", body := HttpBody.html }
  else if path = "/api/scan" then
    { status := 200, contentType := some "application/json"
      body := HttpBody.json (get_data st now) }
  else { status := 404, contentType := none, body := HttpBody.empty }

/-! ## Spec-side free-space-path-loss model (claim C3's comparison point)

Modelled from the spec's words, for comparison with `calculate_distance`:
"`exponent = (27.55 - 20*log10(freq) + |rssi|) / 20`; `distance =
10^exponent`, rounded to 2 decimals", with non-positive results clamped to
the non-negative minimum 0. -/

noncomputable def log10 (x : ℝ) : ℝ := Real.logb 10 x

noncomputable def specFsplRaw (rssi freq : ℝ) : ℝ :=
  (10 : ℝ) ^ ((27.55 - 20 * log10 freq + |rssi|) / 20)

noncomputable def specFsplDistance (rssi freq : ℝ) : ℝ :=
  max (pyRound2 (specFsplRaw rssi freq)) 0

/-! ## Sample data used by concrete witnesses and counterexamples -/

/-- A well-formed record as emitted by `termux-wifi-scaninfo`. -/
def termuxNetA : JVal :=
  JVal.jobj [("ssid", JVal.jstr "FarAP"), ("bssid", JVal.jstr "AA:BB:CC:DD:EE:FF"),
             ("rssi", JVal.jint (-80)), ("frequency", JVal.jint 2412),
             ("capabilities", JVal.jstr "[WPA2-PSK-CCMP][ESS]")]

/-- A second well-formed record, with a stronger signal than `termuxNetA`. -/
def termuxNetB : JVal :=
  JVal.jobj [("ssid", JVal.jstr "NearAP"), ("bssid", JVal.jstr "11:22:33:44:55:66"),
             ("rssi", JVal.jint (-40)), ("frequency", JVal.jint 5180),
             ("capabilities", JVal.jstr "[ESS]")]

/-- The parsed form of `termuxNetA`. -/
def sampleNet : RawNet :=
  { type := "wifi", ssid := "FarAP", mac := "AA:BB:CC:DD:EE:FF", rssi := -80,
    encryption := "WPA2", channel := "1", frequency := 2412 }

/-- A signal whose strength sits exactly at the -100 sentinel of
`calculate_distance`. -/
def weakNet : RawNet :=
  { type := "wifi", ssid := "EdgeAP", mac := "AA:BB:CC:DD:EE:FF", rssi := -100,
    encryption := "WPA2", channel := "6", frequency := 2437 }

/-! # Theorems -/

/-! ## Substring helper lemmas -/

theorem matchesAt_of_append (xs ys l : List Char)
    (h : matchesAt (xs ++ ys) l = true) : matchesAt xs l = true := by
  induction xs generalizing l with
  | nil => rfl
  | cons c cs ih =>
    cases l with
    | nil => simp [matchesAt] at h
    | cons d ds =>
      simp only [List.cons_append, matchesAt, Bool.and_eq_true] at h ⊢
      exact ⟨h.1, ih ds h.2⟩

theorem hasSubList_of_append (xs ys l : List Char)
    (h : hasSubList (xs ++ ys) l = true) : hasSubList xs l = true := by
  induction l with
  | nil =>
    simp only [hasSubList, List.isEmpty_eq_true, List.append_eq_nil] at h
    simp [hasSubList, h.1]
  | cons d ds ih =>
    simp only [hasSubList, Bool.or_eq_true] at h ⊢
    rcases h with h | h
    · exact Or.inl (matchesAt_of_append xs ys _ h)
    · exact Or.inr (ih h)

/-- A string containing `"WPA3"` contains `"WPA"`. -/
theorem pyContains_WPA_of_WPA3 (caps : String)
    (h : pyContains caps "WPA3" = true) : pyContains caps "WPA" = true :=
  hasSubList_of_append "WPA".data ['3'] caps.data h

/-- A string containing `"WPA2"` contains `"WPA"` (contrapositive form). -/
theorem pyContains_WPA2_eq_false (caps : String)
    (h : pyContains caps "WPA" = false) : pyContains caps "WPA2" = false := by
  cases hc : pyContains caps "WPA2" with
  | false => rfl
  | true =>
    have hw : pyContains caps "WPA" = true :=
      hasSubList_of_append "WPA".data ['2'] caps.data hc
    simp [hw] at h

/-! ## C4 — encryption classification -/

/-- C4 counterexample: the claim says a capabilities string containing
`"WPA3"` is classified `WPA3` and an unmatched string is classified
`Unknown`; the code has no `WPA3` branch (such strings fall into the
`'WPA' in capabilities` branch) and its final `else` returns the raw
capabilities string, not `"Unknown"`. -/
theorem c4_counterexample :
    encFromCaps "[WPA3-SAE-CCMP][ESS]" = "WPA" ∧
    encFromCaps "[WPA3-SAE-CCMP][ESS]" ≠ "WPA3" ∧
    encFromCaps "[UNKNOWN-PROTO]" = "[UNKNOWN-PROTO]" ∧
    encFromCaps "[UNKNOWN-PROTO]" ≠ "Unknown" := by decide

/-- C4 (amended): the priority order is WPA2 > WPA > WEP > Open (empty or
exactly `"[ESS]"`), and the fallthrough returns the raw capabilities string.
In particular a string containing `"WPA3"` but not `"WPA2"` is classified
`"WPA"`, and a string matching no marker is classified as itself. -/
theorem c4_encryption_priority :
    (∀ caps : String, pyContains caps "WPA3" = true → pyContains caps "WPA2" = false →
      encFromCaps caps = "WPA") ∧
    (∀ caps : String, pyContains caps "WPA" = false → pyContains caps "WEP" = false →
      caps ≠ "" → caps ≠ "[ESS]" → encFromCaps caps = caps) := by
  constructor
  · intro caps h3 h2
    unfold encFromCaps
    rw [h2, pyContains_WPA_of_WPA3 caps h3]
    rfl
  · intro caps h1 h2 h3 h4
    unfold encFromCaps
    rw [pyContains_WPA2_eq_false caps h1, h1, h2]
    simp [h3, h4]

/-- C4 witness: the amended theorem applied to concrete capability strings. -/
theorem c4_witness :
    encFromCaps "[WPA3-SAE-CCMP][ESS]" = "WPA" ∧ encFromCaps "[FOO]" = "[FOO]" :=
  ⟨c4_encryption_priority.1 _ (by decide) (by decide),
   c4_encryption_priority.2 _ (by decide) (by decide) (by decide) (by decide)⟩

/-! ## C7 — risk score clamped to [0, 100] -/

theorem encScoreOf_nonneg (e : String) : 0 ≤ encScoreOf e := by
  unfold encScoreOf; split_ifs <;> norm_num

theorem rssiScoreOf_nonneg (r : Int) : 0 ≤ rssiScoreOf r := by
  unfold rssiScoreOf; split_ifs <;> norm_num

theorem suspiciousScoreOf_nonneg (s : String) : 0 ≤ suspiciousScoreOf s := by
  unfold suspiciousScoreOf; split_ifs <;> norm_num

theorem hiddenScoreOf_nonneg (s : String) : 0 ≤ hiddenScoreOf s := by
  unfold hiddenScoreOf; split_ifs <;> norm_num

/-- C7: for every input record — absent, negative or zero signal strength,
empty encryption, any label — the risk score lies in [0, 100]. -/
theorem c7_risk_score_clamped (signal : RiskInput) :
    0 ≤ calculate_risk_score signal ∧ calculate_risk_score signal ≤ 100 := by
  unfold calculate_risk_score
  refine ⟨le_min ?_ (by norm_num), min_le_right _ _⟩
  have h1 := encScoreOf_nonneg (signal.encryption.getD "Unknown")
  have h2 := rssiScoreOf_nonneg (signal.rssi.getD (-100))
  have h3 := suspiciousScoreOf_nonneg (pyLower (signal.ssid.getD ""))
  have h4 := hiddenScoreOf_nonneg (pyLower (signal.ssid.getD ""))
  omega

/-! ## C8 — channel derivation -/

/-- C8: the code's `(frequency - 2412) // 5 + 1` agrees with the claimed
`(frequency - 2407) // 5` on every integer frequency (floor division), the
high band is `(frequency - 5000) // 5`, and 2412 maps to channel 1 and 5180
to channel 36. -/
theorem c8_channel_rule :
    (∀ f : Int, channelOfFreq f =
      if 5000 ≤ f then (f - 5000).fdiv 5 else (f - 2407).fdiv 5) ∧
    channelOfFreq 2412 = 1 ∧ channelOfFreq 5180 = 36 := by
  refine ⟨fun f => ?_, by decide, by decide⟩
  unfold channelOfFreq
  split_ifs with h
  · rfl
  · rw [Int.fdiv_eq_ediv _ (by norm_num), Int.fdiv_eq_ediv _ (by norm_num)]
    omega

/-! ## C10 — synthetic position bounds -/

theorem pyMod_bounds (a b : Int) (hb : 0 < b) : 0 ≤ pyMod a b ∧ pyMod a b < b := by
  unfold pyMod
  rw [Int.fmod_eq_emod _ hb.le]
  exact ⟨Int.emod_nonneg a (by omega), Int.emod_lt_of_pos a hb⟩

/-- C10: every enriched signal's synthetic position satisfies
x ∈ [-90, 89] and y ∈ [-80, 79], because `x = (hash % 180) - 90` and
`y = ((hash // 180) % 160) - 80` with Python floor semantics. -/
theorem c10_position_bounds (k0 k1 : Nat) (ts : String) (sig : RawNet) :
    -90 ≤ (enrichSig k0 k1 ts sig).x ∧ (enrichSig k0 k1 ts sig).x ≤ 89 ∧
    -80 ≤ (enrichSig k0 k1 ts sig).y ∧ (enrichSig k0 k1 ts sig).y ≤ 79 := by
  have hx := pyMod_bounds (pyHashStr k0 k1 sig.mac) 180 (by norm_num)
  have hy := pyMod_bounds (pyFloorDiv (pyHashStr k0 k1 sig.mac) 180) 160 (by norm_num)
  have ex : (enrichSig k0 k1 ts sig).x = pyMod (pyHashStr k0 k1 sig.mac) 180 - 90 := rfl
  have ey : (enrichSig k0 k1 ts sig).y =
      pyMod (pyFloorDiv (pyHashStr k0 k1 sig.mac) 180) 160 - 80 := rfl
  rw [ex, ey]
  omega

/-! ## C2 — startup probe failure -/

/-- C2 counterexample: with `termux-wifi-scaninfo` absent (the `which`
probe exits nonzero) the process aborts with `exit(1)`; it does not fall
back to any demo state. -/
theorem c2_counterexample :
    setup_termux ⟨false, 1, false, ""⟩ = SetupResult.abort 1 ∧
    SetupResult.abort 1 ≠ SetupResult.ok := by decide

/-- C2 (amended): startup probing either succeeds or aborts the process
with exit status 1; it succeeds exactly when the `which` probe runs and
returns 0, the scan probe runs without raising, and `"permission"` does not
occur in the scan's lowered stderr.  No demo/degraded fallback exists. -/
theorem c2_probe_failure_aborts (env : ProbeEnv) :
    (setup_termux env = SetupResult.ok ∨ setup_termux env = SetupResult.abort 1) ∧
    (setup_termux env = SetupResult.ok ↔
      (env.whichRaises = false ∧ env.whichExitCode = 0 ∧ env.scanRaises = false ∧
       pyContains (pyLower env.scanStderr) "permission" = false)) := by
  unfold setup_termux
  split_ifs with h1 h2 h3 h4 <;> simp_all

/-! ## C6 — the /api/scan response -/

/-- C6 counterexample: the JSON body of `/api/scan` has no `method` field
(the dict keys are `signals`, `timeline`, `last_scan`). -/
theorem c6_counterexample :
    (do_GET ⟨[], []⟩ "2025-01-01T00:00:00" "/api/scan").status = 200 ∧
    (do_GET ⟨[], []⟩ "2025-01-01T00:00:00" "/api/scan").contentType =
      some "application/json" ∧
    (jsonFields (do_GET ⟨[], []⟩ "2025-01-01T00:00:00" "/api/scan").body).contains
      "method" = false := by decide

/-- C6 (amended): every GET of `/api/scan` returns 200 with Content-Type
`application/json` and a body serializing the `get_data` dict, whose fields
are exactly `signals`, `timeline` and `last_scan` (no `method` field). -/
theorem c6_api_scan_response (st : ScannerState) (now : String) :
    (do_GET st now "/api/scan").status = 200 ∧
    (do_GET st now "/api/scan").contentType = some "application/json" ∧
    (do_GET st now "/api/scan").body = HttpBody.json (get_data st now) ∧
    jsonFields (do_GET st now "/api/scan").body = ["signals", "timeline", "last_scan"] := by
  unfold do_GET
  rw [if_neg (by decide), if_pos rfl]
  exact ⟨rfl, rfl, rfl, rfl⟩

/-! ## C1 — position determinism -/

/-- C1 counterexample: the position is derived from CPython's salted string
hash, so it is not stable across process restarts.  The two key pairs below
are exactly the `_Py_HashSecret` values of two restarts pinned to
`PYTHONHASHSEED=0` and `PYTHONHASHSEED=1` (via the embedded `lcg_urandom`);
the same MAC lands at (-76, -65) in the first process and at (81, -69) in
the second. -/
theorem c1_counterexample :
    keysOfSeed 0 = (0, 0) ∧
    keysOfSeed 1 = (12598376723466036009, 16999324916296290386) ∧
    (enrichSig 0 0 "t" sampleNet).x = -76 ∧
    (enrichSig 0 0 "t" sampleNet).y = -65 ∧
    (enrichSig 12598376723466036009 16999324916296290386 "t" sampleNet).x = 81 ∧
    (enrichSig 12598376723466036009 16999324916296290386 "t" sampleNet).y = -69 ∧
    (enrichSig 0 0 "t" sampleNet).x ≠
      (enrichSig 12598376723466036009 16999324916296290386 "t" sampleNet).x := by
  decide

/-- C1 (amended): within one process (one hash secret `(k0, k1)`), the
synthetic position is a pure function of the identifier alone: two signals
with the same MAC receive the same coordinates in every scan cycle,
whatever their other fields or the cycle timestamp. -/
theorem c1_position_deterministic_within_process (k0 k1 : Nat) (ts1 ts2 : String)
    (s1 s2 : RawNet) (h : s1.mac = s2.mac) :
    (enrichSig k0 k1 ts1 s1).x = (enrichSig k0 k1 ts2 s2).x ∧
    (enrichSig k0 k1 ts1 s1).y = (enrichSig k0 k1 ts2 s2).y := by
  have ex : ∀ ts s, (enrichSig k0 k1 ts s).x = posX (pyHashStr k0 k1 (RawNet.mac s)) :=
    fun _ _ => rfl
  have ey : ∀ ts s, (enrichSig k0 k1 ts s).y = posY (pyHashStr k0 k1 (RawNet.mac s)) :=
    fun _ _ => rfl
  rw [ex, ex, ey, ey, h]
  exact ⟨rfl, rfl⟩

/-- C1 witness: the same MAC in two different scan cycles of one process. -/
theorem c1_witness :
    (enrichSig 0 0 "09:00:00" sampleNet).x = (enrichSig 0 0 "09:00:06" sampleNet).x ∧
    (enrichSig 0 0 "09:00:00" sampleNet).y = (enrichSig 0 0 "09:00:06" sampleNet).y :=
  c1_position_deterministic_within_process 0 0 "09:00:00" "09:00:06" sampleNet sampleNet rfl

/-! ## C5 — snapshot ordering -/

/-- C5 counterexample: `scan_all` publishes the parsed list as-is; parsing
a tool output whose first network is weaker (-80 dBm) than its second
(-40 dBm) publishes a snapshot that is not sorted by descending signal
strength. -/
theorem c5_counterexample :
    sortedByDescRssi
      (scan_all_signals 0 0 "12:00:00"
        (scanWifiTermuxFromJson (some (JVal.jarr [termuxNetA, termuxNetB])))) = false := by
  decide

/-- C5 (amended): the published snapshot preserves the parser's output
order (WiFi list followed by the empty BLE list); no sorting by signal
strength is applied — the published `rssi` and `mac` sequences are exactly
those of the parsed input. -/
theorem c5_publish_preserves_order (k0 k1 : Nat) (ts : String) (wifi : List RawNet) :
    (scan_all_signals k0 k1 ts wifi).map Signal.rssi = wifi.map RawNet.rssi ∧
    (scan_all_signals k0 k1 ts wifi).map Signal.mac = wifi.map RawNet.mac := by
  unfold scan_all_signals scan_ble_termux
  rw [List.append_nil, List.map_map, List.map_map]
  exact ⟨List.map_congr_left fun s _ => rfl, List.map_congr_left fun s _ => rfl⟩

/-! ## C9 — parser tolerance -/

theorem parseNetworks_error_of_mem (l : List JVal) (v : JVal) (hv : v ∈ l)
    (he : parseNetwork v = Except.error ()) : parseNetworks l = Except.error () := by
  induction l with
  | nil => cases hv
  | cons a rest ih =>
    rcases List.mem_cons.mp hv with h | h
    · subst h
      simp [parseNetworks, he]
    · unfold parseNetworks
      cases hpa : parseNetwork a with
      | error e => cases e; rfl
      | ok n => rw [ih h]

theorem parseNetworks_all_ok (l : List JVal)
    (h : ∀ v ∈ l, (parseNetwork v).isOk = true) :
    ∃ ns, parseNetworks l = Except.ok ns ∧ ns.length = l.length := by
  induction l with
  | nil => exact ⟨[], rfl, rfl⟩
  | cons a rest ih =>
    have ha := h a (List.mem_cons_self a rest)
    obtain ⟨n, hn⟩ : ∃ n, parseNetwork a = Except.ok n := by
      cases hpa : parseNetwork a with
      | ok n => exact ⟨n, rfl⟩
      | error e => rw [hpa] at ha; simp [Except.isOk, Except.toBool] at ha
    obtain ⟨ns, hns, hlen⟩ := ih fun v hv => h v (List.mem_cons_of_mem a hv)
    refine ⟨n :: ns, ?_, by simp [hlen]⟩
    unfold parseNetworks
    rw [hn, hns]

/-- C9 counterexample: a well-formed record parses on its own, but adding a
malformed sibling (the integer 42, on which `network.get` raises
`AttributeError`) makes the whole parse return `[]` — the malformed record
is not skipped individually, it destroys the accumulated good records. -/
theorem c9_counterexample :
    scanWifiTermuxFromJson (some (JVal.jarr [termuxNetA])) = [sampleNet] ∧
    scanWifiTermuxFromJson (some (JVal.jarr [termuxNetA, JVal.jint 42])) = [] := by
  constructor <;> rfl

/-- C9 (amended): the structured-record parser always returns a list and
never raises past its boundary; records with missing fields are completed
with defaults, and a list of well-formed records is parsed in full — but
any record the loop body raises on aborts the whole parse, which returns
the empty list (not the partial list accumulated so far). -/
theorem c9_parse_abort_semantics :
    (∀ (l : List JVal) (v : JVal), v ∈ l → parseNetwork v = Except.error () →
      scanWifiTermuxFromJson (some (JVal.jarr l)) = []) ∧
    (∀ l : List JVal, (∀ v ∈ l, (parseNetwork v).isOk = true) →
      (scanWifiTermuxFromJson (some (JVal.jarr l))).length = l.length) := by
  constructor
  · intro l v hv he
    show (if l.isEmpty then [] else
      match parseNetworks l with
      | Except.ok ns => ns
      | Except.error _ => []) = []
    by_cases hl : l.isEmpty
    · rw [if_pos hl]
    · rw [if_neg hl, parseNetworks_error_of_mem l v hv he]
  · intro l hall
    show (if l.isEmpty then [] else
      match parseNetworks l with
      | Except.ok ns => ns
      | Except.error _ => []).length = l.length
    by_cases hl : l.isEmpty
    · rw [if_pos hl]
      rw [List.isEmpty_eq_true] at hl
      simp [hl]
    · obtain ⟨ns, hns, hlen⟩ := parseNetworks_all_ok l hall
      rw [if_neg hl, hns]
      exact hlen

/-- C9 witness: the amended theorem applied to a concrete malformed list
and to a concrete well-formed list. -/
theorem c9_witness :
    scanWifiTermuxFromJson (some (JVal.jarr [termuxNetA, JVal.jint 42])) = [] ∧
    (scanWifiTermuxFromJson (some (JVal.jarr [termuxNetA, termuxNetB]))).length = 2 :=
  ⟨c9_parse_abort_semantics.1 [termuxNetA, JVal.jint 42] (JVal.jint 42)
      (List.mem_cons_of_mem _ (List.mem_cons_self _ _)) rfl,
   c9_parse_abort_semantics.2 [termuxNetA, termuxNetB] (by
      intro v hv
      rcases List.mem_cons.mp hv with h | h
      · subst h; rfl
      · rcases List.mem_cons.mp h with h' | h'
        · subst h'; rfl
        · cases h')⟩

/-! ## C3 — distance model: helper lemmas -/

theorem round_ge_sub_half (t : ℝ) : t - 1 / 2 ≤ (round t : ℝ) := by
  have h := abs_sub_round t
  rw [abs_le] at h
  linarith [h.2]

theorem round_nonneg_of_nonneg (t : ℝ) (ht : 0 ≤ t) : 0 ≤ round t := by
  have h := round_ge_sub_half t
  have h2 : (-1 : ℝ) < (round t : ℝ) := by linarith
  have h3 : (-1 : ℤ) < round t := by exact_mod_cast h2
  omega

/-- Round-half-even never rounds down by more than one. -/
theorem rhe_ge_sub_one (y : ℝ) : y - 1 ≤ (rhe y : ℝ) := by
  unfold rhe
  split_ifs with h
  · push_cast
    have := round_ge_sub_half (y / 2)
    linarith
  · have := round_ge_sub_half y
    linarith

theorem rhe_nonneg (y : ℝ) (hy : 0 ≤ y) : 0 ≤ (rhe y : ℝ) := by
  unfold rhe
  split_ifs with h
  · push_cast
    have := round_nonneg_of_nonneg (y / 2) (by linarith)
    have h2 : (0 : ℝ) ≤ (round (y / 2) : ℝ) := by exact_mod_cast this
    linarith
  · exact_mod_cast round_nonneg_of_nonneg y hy

theorem pyRound1_nonneg (x : ℝ) (hx : 0 ≤ x) : 0 ≤ pyRound1 x := by
  unfold pyRound1
  have := rhe_nonneg (x * 10) (by linarith)
  linarith

theorem pyRound1_hundred : pyRound1 (100 : ℝ) = 100 := by
  unfold pyRound1 rhe
  rw [show (100 : ℝ) * 10 = ((1000 : ℤ) : ℝ) by norm_num]
  rw [Int.fract_intCast, round_intCast]
  rw [if_neg (by norm_num)]
  norm_num

theorem calculate_distance_neg100 : calculate_distance (-100 : ℝ) = 100 := by
  unfold calculate_distance
  rw [if_pos (Or.inr rfl)]

/-- We have `10 ^ 0.3775 > 2`, by raising both sides to the 400th power:
`10 ^ 151 > 2 ^ 400`. -/
theorem rpow_03775_gt_two : (2 : ℝ) < (10 : ℝ) ^ (0.3775 : ℝ) := by
  by_contra hcon
  push_neg at hcon
  have h400 : ((10 : ℝ) ^ (0.3775 : ℝ)) ^ (400 : ℕ) ≤ (2 : ℝ) ^ (400 : ℕ) :=
    pow_le_pow_left₀ (Real.rpow_nonneg (by norm_num) _) hcon 400
  have heq : ((10 : ℝ) ^ (0.3775 : ℝ)) ^ (400 : ℕ) = (10 : ℝ) ^ (151 : ℕ) := by
    rw [← Real.rpow_natCast ((10 : ℝ) ^ (0.3775 : ℝ)) 400,
        ← Real.rpow_mul (by norm_num : (0 : ℝ) ≤ 10)]
    rw [show (0.3775 : ℝ) * ((400 : ℕ) : ℝ) = ((151 : ℕ) : ℝ) by norm_num]
    exact Real.rpow_natCast 10 151
  rw [heq] at h400
  norm_num at h400

theorem logb_2437_lt_four : Real.logb 10 2437 < 4 := by
  rw [Real.logb_lt_iff_lt_rpow (by norm_num) (by norm_num)]
  rw [show (4 : ℝ) = ((4 : ℕ) : ℝ) by norm_num, Real.rpow_natCast]
  norm_num

/-- The spec's FSPL recipe at rssi = -100 dBm, freq = 2437 MHz yields a
distance far above 100 m. -/
theorem specFspl_gt_100 : (100 : ℝ) < specFsplDistance (-100 : ℝ) (2437 : ℝ) := by
  unfold specFsplDistance specFsplRaw pyRound2 log10
  have habs : |(-100 : ℝ)| = 100 := by
    rw [abs_of_nonpos (by norm_num)]; norm_num
  rw [habs]
  have he2 : (2.3775 : ℝ) <
      (27.55 - 20 * Real.logb 10 2437 + 100) / 20 := by
    have := logb_2437_lt_four
    linarith
  have hmono : (10 : ℝ) ^ (2.3775 : ℝ) <
      (10 : ℝ) ^ ((27.55 - 20 * Real.logb 10 2437 + 100) / 20) := by
    rw [Real.rpow_lt_rpow_left_iff (by norm_num : (1 : ℝ) < 10)]
    exact he2
  have hsplit : (10 : ℝ) ^ (2.3775 : ℝ) = (10 : ℝ) ^ (2 : ℝ) * (10 : ℝ) ^ (0.3775 : ℝ) := by
    rw [← Real.rpow_add (by norm_num : (0 : ℝ) < 10)]
    norm_num
  have h100 : (10 : ℝ) ^ (2 : ℝ) = 100 := by
    rw [show (2 : ℝ) = ((2 : ℕ) : ℝ) by norm_num, Real.rpow_natCast]
    norm_num
  have hraw : (200 : ℝ) < (10 : ℝ) ^ ((27.55 - 20 * Real.logb 10 2437 + 100) / 20) := by
    have := rpow_03775_gt_two
    nlinarith
  have hrhe := rhe_ge_sub_one ((10 : ℝ) ^ ((27.55 - 20 * Real.logb 10 2437 + 100) / 20) * 100)
  have hdiv : (100 : ℝ) <
      (rhe ((10 : ℝ) ^ ((27.55 - 20 * Real.logb 10 2437 + 100) / 20) * 100) : ℝ) / 100 := by
    linarith
  exact lt_max_iff.mpr (Or.inl hdiv)

/-- C3 counterexample: at rssi = -100 (frequency field 2437) the code
publishes a distance of exactly 100 m (the sentinel branch of its
ratio-based heuristic, rounded to one decimal), while the claimed FSPL
recipe — `10 ^ ((27.55 - 20*log10(freq) + |rssi|)/20)`, rounded to two
decimals and clamped at 0 — exceeds 100 m there, so the two disagree. -/
theorem c3_counterexample :
    (enrichSig 0 0 "t" weakNet).distance = 100 ∧
    specFsplDistance ((weakNet.rssi : ℝ)) ((weakNet.frequency : ℝ)) ≠
      (enrichSig 0 0 "t" weakNet).distance := by
  have hd : (enrichSig 0 0 "t" weakNet).distance =
      pyRound1 (calculate_distance ((-100 : Int) : ℝ)) := rfl
  have hcast : ((-100 : Int) : ℝ) = (-100 : ℝ) := by norm_num
  have h1 : (enrichSig 0 0 "t" weakNet).distance = 100 := by
    rw [hd, hcast, calculate_distance_neg100, pyRound1_hundred]
  refine ⟨h1, ?_⟩
  rw [h1]
  have hr : ((weakNet.rssi : Int) : ℝ) = (-100 : ℝ) := by norm_num [weakNet]
  have hf : ((weakNet.frequency : Int) : ℝ) = (2437 : ℝ) := by norm_num [weakNet]
  rw [hr, hf]
  exact ne_of_gt specFspl_gt_100

theorem ratio_pow_ten_nonneg (r : ℝ) : 0 ≤ r ^ (10 : ℕ) :=
  Even.pow_nonneg (by decide) r

/-- C3 (amended): the published distance comes from the ratio-based
heuristic of `calculate_distance` — 100 at the sentinels rssi ∈ {0, -100},
`(rssi / -60) ^ 10` when `rssi / -60 < 1`, and
`0.89976 * (rssi / -60) ^ 7.7095 + 0.111` otherwise — rounded to **one**
decimal; the frequency parameter is ignored entirely, and the result is
always non-negative. -/
theorem c3_distance_ratio_model (rssi f1 f2 : ℝ) :
    calculate_distance rssi f1 = calculate_distance rssi f2 ∧
    0 ≤ calculate_distance rssi f1 ∧
    0 ≤ pyRound1 (calculate_distance rssi f1) := by
  have hfreq : calculate_distance rssi f1 = calculate_distance rssi f2 := rfl
  have hnn : 0 ≤ calculate_distance rssi f1 := by
    unfold calculate_distance
    split_ifs with h1
    · norm_num
    · show 0 ≤ if rssi / (-60) < 1 then (rssi / (-60)) ^ (10 : ℕ)
        else 0.89976 * (rssi / (-60)) ^ (7.7095 : ℝ) + 0.111
      split_ifs with h2
      · exact ratio_pow_ten_nonneg _
      · push_neg at h2
        have hbase : (0 : ℝ) ≤ rssi / (-60) := by linarith
        have := Real.rpow_nonneg hbase (7.7095 : ℝ)
        nlinarith
  exact ⟨hfreq, hnn, pyRound1_nonneg _ hnn⟩


end Sopia
